import Mathlib

/-!
Formal model of the S3Method class in modules/core/methods/base.py.

The Python class is a CRUD access-method base class: its entry point
resolves an incoming request to a target resource and record, resolves
the method name, sets a filter-hiding policy, delegates to a
subclass-supplied handler (apply_method or widget), post-processes the
output for view rendering, and offers utility functions for permission
checking and URL-variable filtering.

The embedding is shallow: Python values that flow through the generic
parts of the code (attr entries, handler outputs, the hide_filter
setting) are modelled by the inductive type PyVal; callables are
characterised by their behaviour at the single call site handler(r),
so a callable value carries either the value it returns or the
exception it raises.  Mutation of the request object and of the self
attributes is modelled by explicit state passing: functions return the
updated records.  Framework globals (current.response, current.auth,
current.s3db) are passed in as parameters.
-/

/-- Python truthiness of an optional string (None and the empty string
are falsy, every other string is truthy). -/
def truthyOS : Option String → Bool
  | none => false
  | some s => decide (s ≠ "")

/-- Python truthiness of an optional numeric record id (None and 0 are
falsy). -/
def truthyId : Option Nat → Bool
  | none => false
  | some n => decide (n ≠ 0)

/-- A Python exception, as far as the modelled code distinguishes
exceptions: TypeError is caught in _extend_view, every other
exception is opaque and identified by a tag. -/
inductive PyExn where
  | typeError
  | other (tag : Nat)

/-- A Python value as seen by the modelled code.  Dict keys are
Option String because the hide_filter mapping may use the key None
for the master resource.  A callable is characterised by what the
single call handler(r) does: return a value or raise an exception. -/
inductive PyVal where
  | pnone
  | pbool (b : Bool)
  | pstr (s : String)
  | pdict (entries : List (Option String × PyVal))
  | pfuncRet (v : PyVal)
  | pfuncRaise (e : PyExn)
  | pother (tag : Nat)

/-- A Python dict with possibly-None keys, in insertion order. -/
abbrev Dict := List (Option String × PyVal)

/-- Python callable(v). -/
def isCallable : PyVal → Bool
  | .pfuncRet _ => true
  | .pfuncRaise _ => true
  | _ => false

/-- Dict lookup d[k] (first matching key). -/
def dget : Dict → Option String → Option PyVal
  | [], _ => none
  | (k, v) :: rest, key => if k = key then some v else dget rest key

/-- Python key membership k in d. -/
def dmem (d : Dict) (k : Option String) : Bool :=
  (dget d k).isSome

/-- Dict assignment d[k] = v: replace in place when the key exists,
append otherwise. -/
def dset (d : Dict) (k : Option String) (v : PyVal) : Dict :=
  if dmem d k then d.map (fun kv => if kv.1 = k then (k, v) else kv)
  else d ++ [(k, v)]

/-- Dict deletion del d[k]. -/
def ddel (d : Dict) (k : Option String) : Dict :=
  d.filter (fun kv => decide (kv.1 ≠ k))

/-- out.update(**d): keyword expansion raises TypeError when a key is
not a string, otherwise every pair of d is assigned into out. -/
def dupdateKw (out : Dict) (d : Dict) : Except PyExn Dict :=
  if d.all (fun kv => kv.1.isSome) then
    .ok (d.foldl (fun o kv => dset o kv.1 kv.2) out)
  else .error .typeError

/-- Lookup in a keyword-argument dict (string keys), attr.get(key). -/
def aget : List (String × PyVal) → String → Option PyVal
  | [], _ => none
  | (k, v) :: rest, key => if k = key then some v else aget rest key

/-- The link object r.link of a component request: its method
link_id(master_id, component_id) returns the id of the link record. -/
structure Link where
  link_id_of : Nat → Nat → Option Nat

/-- The resource-facing attributes the modelled code reads from a
resource object (prefix, name, tablename, table).  The table is
identified by a numeric id. -/
structure Resource where
  prefix_ : String
  name : String
  tablename : String
  table : Nat

/-- A component (a related sub-resource of a master record): it is a
resource itself, carries the multiple flag, an optional link-table
resource, and the primary key of its first record, used when a single
component record is enforced (none when no record exists). -/
structure Component extends Resource where
  multiple : Bool
  link : Option Resource
  first_record_id : Option Nat

/-- The attributes the modelled code reads from and writes to the
S3Request object r.  actuate_link is the (pure) result of the method
call r.actuate_link(). -/
structure Request where
  method : Option String
  id : Option Nat
  component : Option Component
  component_id : Option Nat
  component_name : Option String
  link : Option Link
  link_id : Option Nat
  actuate_link : Bool
  interactive : Bool
  resource : Resource
  table : Nat
  tablename : String
  next : Option String

/-- The instance attributes of an S3Method handler (self). -/
structure SelfState where
  request : Option Request
  method : Option String
  download_url : PyVal
  hide_filter : PyVal
  prefix_ : Option String
  name : Option String
  resource : Option Resource
  tablename : Option String
  table : Option Nat
  record_id : Option Nat
  next : Option String

/-- S3Method.__init__: all attributes cleared, hide_filter False. -/
def S3Method_init : SelfState :=
  { request := none
    method := none
    download_url := .pnone
    hide_filter := .pbool false
    prefix_ := none
    name := none
    resource := none
    tablename := none
    table := none
    record_id := none
    next := none }

/-- The observable effect of a subclass apply_method call: the output
it returns, the value of self.next after the call, the value of
resource.lastid after the call (apply_method may set it), and the
truthiness of response.error after the call. -/
structure ApplyEffect where
  output : PyVal
  next : Option String
  resource_lastid : Option String
  response_error : Bool

/-- link.link_id(master_id, component_id), total over the optional
link object (only invoked when the link is present). -/
def linkLookup : Option Link → Nat → Nat → Option Nat
  | some l, m, c => l.link_id_of m c
  | none, _, _ => none

/-- S3Method._record_id(r): get the id of the target record, with the
side effects on r made explicit (the enforce-first-record branch sets
r.component_id and possibly r.link_id).  Returns the id and the
updated request. -/
def S3Method_record_id (r : Request) : Option Nat × Request :=
  match r.component with
  | none => (r.id, r)
  | some component =>
    -- if not component.multiple and not component_id: load first record
    let enforce := (!component.multiple && !truthyId r.component_id) &&
                   component.first_record_id.isSome
    let pk := component.first_record_id.getD 0
    -- if link and master_id: r.link_id = link.link_id(master_id, component_id)
    let link_id1 := if enforce && r.link.isSome && truthyId r.id then
                      linkLookup r.link (r.id.getD 0) pk
                    else r.link_id
    -- r.component_id = component_id
    let component_id1 := if enforce then some pk else r.component_id
    let r1 : Request := { r with component_id := component_id1, link_id := link_id1 }
    -- if not link or r.actuate_link(): return component_id else r.link_id
    if !r.link.isSome || r1.actuate_link then (component_id1, r1)
    else (r1.link_id, r1)

/-- The result of the target-resolution block of S3Method.__call__
(lines 100-127 of base.py): the resolved resource, the target record
id, the resolved method, and the request after the side effects of
_record_id. -/
structure Target where
  resource : Resource
  record_id : Option Nat
  method : Option String
  req : Request

/-- The target-resolution block of S3Method.__call__: find the target
resource and record and default the method.  m0 is the value of
self.method before defaulting (the method argument if not None, else
r.method). -/
def resolveTarget (r : Request) (m0 : Option String) : Target :=
  match r.component with
  | some component =>
    -- self.record_id = self._record_id(r)
    let rid := (S3Method_record_id r).1
    let r1 := (S3Method_record_id r).2
    -- if not self.method: list when multiple and no component id, else read
    let m := if truthyOS m0 then m0
             else if component.multiple && !truthyId r1.component_id then some "list"
             else some "read"
    -- if component.link and not r.actuate_link(): resource = component.link
    let resource :=
      match component.link with
      | some lnk => if !r1.actuate_link then lnk else component.toResource
      | none => component.toResource
    { resource := resource, record_id := rid, method := m, req := r1 }
  | none =>
    -- self.record_id = r.id; resource = r.resource
    let m := if truthyOS m0 then m0
             else if truthyId r.id || r.method = some "read" || r.method = some "display"
             then some "read"
             else some "list"
    { resource := r.resource, record_id := r.id, method := m, req := r }

/-- Target resolution as performed by __call__ for a given method
argument: self.method is first set to the method argument when that is
not None, else to r.method. -/
def callTarget (r : Request) (marg : Option String) : Target :=
  resolveTarget r (if marg.isSome then marg else r.method)

/-- The hide_filter policy block of S3Method.__call__ (lines 133-160):
for interactive requests the hide_filter attr is resolved (a dict is
looked up by component name, then by the _default key, else None, and
None resolves to whether the request has a component); non-interactive
requests always hide filters. -/
def resolveHideFilter (r : Request) (attr : List (String × PyVal)) : PyVal :=
  if r.interactive then
    let hf0 := (aget attr "hide_filter").getD .pnone
    let hf1 :=
      match hf0 with
      | .pdict entries =>
        match dget entries r.component_name with
        | some v => v
        | none =>
          match dget entries (some "_default") with
          | some v => v
          | none => .pnone
      | v => v
    match hf1 with
    | .pnone => .pbool r.component.isSome
    | v => v
  else .pbool true

/-- Left-to-right non-overlapping replacement of a pattern in a
character list, the semantics of Python str.replace for a non-empty
pattern; fuel-driven so that it is structurally recursive (the fuel is
instantiated with the length of the string, which suffices because
every step consumes at least one character). -/
def listReplaceFuel (pat rep : List Char) : Nat → List Char → List Char
  | 0, s => s
  | _ + 1, [] => []
  | fuel + 1, c :: rest =>
    if pat.isPrefixOf (c :: rest) && !pat.isEmpty then
      rep ++ listReplaceFuel pat rep fuel (List.drop (pat.length - 1) rest)
    else c :: listReplaceFuel pat rep fuel rest

/-- Python s.replace(pat, rep) for a non-empty pattern. -/
def pyReplace (s pat rep : String) : String :=
  String.mk (listReplaceFuel pat.data rep.data s.data.length s.data)

/-- The loop body of S3Method._extend_view over the attr entries: a
callable entry is invoked (TypeError is caught and the entry skipped,
other exceptions propagate); a dict returned by a callable is merged
into the output; a None returned by a callable deletes an existing
output entry under that key; any other non-None display value is
stored under the key. -/
def extendViewLoop : List (String × PyVal) → Dict → Except PyExn Dict
  | [], out => .ok out
  | (key, handler) :: rest, out =>
    match handler with
    | .pfuncRet v =>
      -- resolve = True, display = handler(r)
      match v with
      | .pdict d =>
        -- output.update(**display)
        match dupdateKw out d with
        | .ok out1 => extendViewLoop rest out1
        | .error e => .error e
      | .pnone =>
        -- elif key in output and callable(handler): del output[key]
        extendViewLoop rest (if dmem out (some key) then ddel out (some key) else out)
      | display => extendViewLoop rest (dset out (some key) display)
    | .pfuncRaise .typeError =>
      -- argument list failure: pass callable to the view as-is, continue
      extendViewLoop rest out
    | .pfuncRaise e =>
      -- propagate all other errors to the caller
      .error e
    | .pnone =>
      -- resolve = False, display is None: nothing stored, nothing deleted
      extendViewLoop rest out
    | display =>
      -- resolve = False, display not None: output[key] = display
      extendViewLoop rest (dset out (some key) display)

/-- S3Method._extend_view(output, r, **attr): only an interactive
request with a dict output is post-processed; the result is the
updated output, or the propagated exception. -/
def S3Method_extend_view (output : PyVal) (interactive : Bool)
    (attr : List (String × PyVal)) : Except PyExn PyVal :=
  match output, interactive with
  | .pdict d, true => (extendViewLoop attr d).map PyVal.pdict
  | o, _ => .ok o

/-- The redirection block of S3Method.__call__ (lines 171-177): when
apply_method left self.next set and the resource has a lastid, the
string form of self.next has every occurrence of the %5Bid%5D and
then of the [id] placeholder replaced by the lastid. -/
def callNext (eff : ApplyEffect) : Option String :=
  if truthyOS eff.next && truthyOS eff.resource_lastid then
    some (pyReplace (pyReplace (eff.next.getD "") "%5Bid%5D" (eff.resource_lastid.getD ""))
          "[id]" (eff.resource_lastid.getD ""))
  else eff.next

/-- S3Method.__call__(r, method, widget_id, **attr).  dl is the value
of response.s3.download_url; has_widget is hasattr(self, "widget");
widgetFn and applyFn are the subclass-supplied handlers (applyFn
returns the observable effect of apply_method, see ApplyEffect).  The
result is the final self state, the final request, and either the
output or the propagated exception; self and r keep their mutations
even when an exception propagates. -/
def S3Method_call (dl : PyVal) (has_widget : Bool)
    (widgetFn : Request → Option String → Option String → List (String × PyVal) → PyVal)
    (applyFn : Request → List (String × PyVal) → ApplyEffect)
    (s0 : SelfState) (r : Request) (marg widget_id : Option String)
    (attr : List (String × PyVal)) :
    SelfState × Request × Except PyExn PyVal :=
  -- self.request = r; self.download_url = ...; self.method = method or r.method;
  -- target resolution (lines 100-127) and assignment of the target attributes
  let t := callTarget r marg
  let s1 : SelfState :=
    { s0 with
      request := some r
      download_url := dl
      method := t.method
      record_id := t.record_id
      prefix_ := some t.resource.prefix_
      name := some t.resource.name
      tablename := some t.resource.tablename
      table := some t.resource.table
      resource := some t.resource }
  if t.method = some "_init" then
    -- just init, do not execute
    (s1, t.req, .ok .pnone)
  else
    let s2 := { s1 with hide_filter := resolveHideFilter t.req attr }
    if truthyOS widget_id && has_widget then
      -- output = self.widget(r, method=self.method, widget_id=widget_id, **attr)
      (s2, t.req, .ok (widgetFn t.req t.method widget_id attr))
    else
      -- output = self.apply_method(r, **attr)
      let eff := applyFn t.req attr
      -- redirection: replace the [id] placeholders when next and lastid are set
      let nx := callNext eff
      let s3 := { s2 with next := nx }
      -- if not response.error: r.next = self.next
      let r2 := if eff.response_error then t.req else { t.req with next := nx }
      -- self._extend_view(output, r, **attr); return output
      (s3, r2, S3Method_extend_view eff.output r2.interactive attr)

/-- The method-name normalisation at the start of S3Method._permitted:
the method argument defaults to self.method, and the list-type methods
are checked as read. -/
def checkMethod (selfMethod marg : Option String) : Option String :=
  let m := if truthyOS marg then marg else selfMethod
  if m = some "list" ∨ m = some "datatable" ∨ m = some "datalist" then some "read"
  else m

/-- Whether the master table configures ignore_master_access as a
tuple or list containing the component name (cfg models
current.s3db.get_config(tablename, "ignore_master_access"), with none
standing for any non-tuple, non-list configuration value). -/
def ignoreMaster (cfg : String → Option (List String)) (r : Request) : Bool :=
  match cfg r.tablename with
  | some writable =>
    match r.component_name with
    | some cn => writable.contains cn
    | none => false
  | none => false

/-- S3Method._permitted(method): check permission for the requested
resource.  hp models current.auth.s3_has_permission(method, table,
record_id); cfg models the ignore_master_access configuration. -/
def S3Method_permitted (hp : Option String → Nat → Option Nat → Bool)
    (cfg : String → Option (List String)) (r : Request)
    (selfMethod marg : Option String) : Bool :=
  let method := checkMethod selfMethod marg
  match r.component with
  | none =>
    -- table = r.table; record_id = r.id
    hp method r.table r.id
  | some component =>
    -- table = r.component.table; record_id = r.component_id
    if method = some "create" then
      -- creating a component record needs update access to the master
      -- record unless ignore_master_access lists the component
      if !ignoreMaster cfg r && !hp (some "update") r.table r.id then false
      else hp method component.table r.component_id
    else hp method component.table r.component_id

/-- Whether REGEX_FILTER = re.compile(r".+\..+|.*\(.+\).*") matches
the key (re.match, anchored at the start only).  The dot metacharacter
matches every character except a newline, so the first alternative
matches exactly when some position i holds a literal dot, is preceded
by at least one character with no newline among the preceding
characters, and is followed by a non-newline character; the second
alternative matches exactly when some opening parenthesis, preceded
only by non-newline characters, is followed by a later closing
parenthesis with at least one character and no newline in between.
The trailing unconstrained parts of the pattern put no condition on
the rest of the key because re.match only needs a matching prefix. -/
def REGEX_FILTER_match (k : String) : Bool :=
  let s := k.data
  let n := s.length
  let nonNl : Nat → Bool := fun m => decide (s.getD m ' ' ≠ '\n')
  let alt1 := (List.range n).any fun i =>
    decide (1 ≤ i) && decide (i + 1 < n) && decide (s.getD i ' ' = '.') &&
    ((List.range i).all nonNl) && nonNl (i + 1)
  let alt2 := (List.range n).any fun i =>
    decide (s.getD i ' ' = '(') && ((List.range i).all nonNl) &&
    ((List.range n).any fun j =>
      decide (i + 1 < j) && decide (s.getD j ' ' = ')') &&
      ((List.range j).all fun m => !(decide (i < m)) || nonNl m))
  alt1 || alt2

/-- The filter-pattern reading given by the specification text: a key
containing a dot with non-empty text on both sides, or containing a
parenthesized non-empty group. -/
def specFilterPattern (k : String) : Bool :=
  let s := k.data
  let n := s.length
  ((List.range n).any fun i =>
    decide (1 ≤ i) && decide (i + 1 < n) && decide (s.getD i ' ' = '.')) ||
  ((List.range n).any fun i =>
    decide (s.getD i ' ' = '(') &&
    ((List.range n).any fun j =>
      decide (i + 1 < j) && decide (s.getD j ' ' = ')')))

/-- S3Method._remove_filters(get_vars): keep exactly the URL vars
whose key does not match REGEX_FILTER; a new Storage is built, the
input is not modified. -/
def S3Method_remove_filters (get_vars : List (String × PyVal)) :
    List (String × PyVal) :=
  get_vars.filter (fun kv => !REGEX_FILTER_match kv.1)

/-- A sample master resource for concrete evaluations. -/
def orgOffice : Resource :=
  { prefix_ := "org", name := "office", tablename := "org_office", table := 1 }

/-- A sample component resource. -/
def orgContact : Resource :=
  { prefix_ := "org", name := "contact", tablename := "org_contact", table := 2 }

/-- A sample multiple component with no records loaded. -/
def contactComponent : Component :=
  { toResource := orgContact, multiple := true, link := none, first_record_id := none }

/-- A sample master request without a component. -/
def masterRequest : Request :=
  { method := some "read"
    id := some 5
    component := none
    component_id := none
    component_name := none
    link := none
    link_id := none
    actuate_link := false
    interactive := true
    resource := orgOffice
    table := 1
    tablename := "org_office"
    next := none }

/-- A sample component request (master org_office, component contact). -/
def componentRequest : Request :=
  { method := none
    id := some 5
    component := some contactComponent
    component_id := none
    component_name := some "contact"
    link := none
    link_id := none
    actuate_link := false
    interactive := true
    resource := orgOffice
    table := 1
    tablename := "org_office"
    next := none }

/-- An apply_method effect that returns a marker output and touches
nothing else. -/
def plainApply : Request → List (String × PyVal) → ApplyEffect :=
  fun _ _ =>
    { output := .pstr "handled", next := none, resource_lastid := none,
      response_error := false }

/-- A widget handler that returns a marker output. -/
def plainWidget : Request → Option String → Option String → List (String × PyVal) → PyVal :=
  fun _ _ _ _ => .pstr "widget-output"

/-- _record_id only mutates component_id and link_id of the request. -/
theorem record_id_req_shape (r : Request) :
    ∃ cid lid, (S3Method_record_id r).2 =
      { r with component_id := cid, link_id := lid } := by
  cases hc : r.component with
  | none =>
    refine ⟨r.component_id, r.link_id, ?_⟩
    simp only [S3Method_record_id, hc]
    rw [← hc]
  | some c =>
    simp only [S3Method_record_id, hc]
    split
    · exact ⟨_, _, rfl⟩
    · exact ⟨_, _, rfl⟩

/-- Target resolution only mutates component_id and link_id of the
request. -/
theorem callTarget_req_shape (r : Request) (marg : Option String) :
    ∃ cid lid, (callTarget r marg).req =
      { r with component_id := cid, link_id := lid } := by
  cases hc : r.component with
  | none =>
    refine ⟨r.component_id, r.link_id, ?_⟩
    simp only [callTarget, resolveTarget, hc]
    rw [← hc]
  | some c =>
    have h := record_id_req_shape r
    simpa [callTarget, resolveTarget, hc] using h

/-- Target resolution preserves r.interactive. -/
theorem callTarget_req_interactive (r : Request) (marg : Option String) :
    (callTarget r marg).req.interactive = r.interactive := by
  obtain ⟨cid, lid, h⟩ := callTarget_req_shape r marg
  rw [h]

/-- Target resolution preserves r.next. -/
theorem callTarget_req_next (r : Request) (marg : Option String) :
    (callTarget r marg).req.next = r.next := by
  obtain ⟨cid, lid, h⟩ := callTarget_req_shape r marg
  rw [h]

/-- Target resolution preserves r.component. -/
theorem callTarget_req_component (r : Request) (marg : Option String) :
    (callTarget r marg).req.component = r.component := by
  obtain ⟨cid, lid, h⟩ := callTarget_req_shape r marg
  rw [h]

/-- Target resolution preserves r.component_name. -/
theorem callTarget_req_component_name (r : Request) (marg : Option String) :
    (callTarget r marg).req.component_name = r.component_name := by
  obtain ⟨cid, lid, h⟩ := callTarget_req_shape r marg
  rw [h]

/-- The hide_filter resolution only depends on request fields that
target resolution preserves. -/
theorem resolveHideFilter_req (r : Request) (marg : Option String)
    (attr : List (String × PyVal)) :
    resolveHideFilter (callTarget r marg).req attr = resolveHideFilter r attr := by
  obtain ⟨cid, lid, h⟩ := callTarget_req_shape r marg
  rw [h]
  rfl

/-- The resolved self.method stored by __call__ is the method computed
by target resolution, in every branch. -/
theorem call_self_method (dl : PyVal) (hw : Bool)
    (wfn : Request → Option String → Option String → List (String × PyVal) → PyVal)
    (afn : Request → List (String × PyVal) → ApplyEffect)
    (s0 : SelfState) (r : Request) (marg wid : Option String)
    (attr : List (String × PyVal)) :
    (S3Method_call dl hw wfn afn s0 r marg wid attr).1.method
      = (callTarget r marg).method := by
  simp only [S3Method_call]
  split
  · rfl
  · split <;> rfl

/-- In the apply_method branch (no widget, method not _init), __call__
computes exactly: the target attributes and hide_filter on self, the
redirected next, the conditional assignment of r.next, and the output
post-processed by _extend_view. -/
theorem call_apply_branch (dl : PyVal) (hw : Bool)
    (wfn : Request → Option String → Option String → List (String × PyVal) → PyVal)
    (afn : Request → List (String × PyVal) → ApplyEffect)
    (s0 : SelfState) (r : Request) (marg wid : Option String)
    (attr : List (String × PyVal))
    (hm : (callTarget r marg).method ≠ some "_init")
    (hwid : (truthyOS wid && hw) = false) :
    S3Method_call dl hw wfn afn s0 r marg wid attr =
      ({ s0 with
         request := some r
         download_url := dl
         method := (callTarget r marg).method
         record_id := (callTarget r marg).record_id
         prefix_ := some (callTarget r marg).resource.prefix_
         name := some (callTarget r marg).resource.name
         tablename := some (callTarget r marg).resource.tablename
         table := some (callTarget r marg).resource.table
         resource := some (callTarget r marg).resource
         hide_filter := resolveHideFilter r attr
         next := callNext (afn (callTarget r marg).req attr) },
       (if (afn (callTarget r marg).req attr).response_error then (callTarget r marg).req
        else { (callTarget r marg).req with
               next := callNext (afn (callTarget r marg).req attr) }),
       S3Method_extend_view (afn (callTarget r marg).req attr).output
         r.interactive attr) := by
  have hi : ∀ (b : Bool) (nx : Option String),
      ((if b = true then (callTarget r marg).req
        else { (callTarget r marg).req with next := nx }) : Request).interactive
        = r.interactive := by
    intro b nx
    split
    · exact callTarget_req_interactive r marg
    · exact callTarget_req_interactive r marg
  simp only [S3Method_call]
  rw [if_neg hm, if_neg (by simp [hwid])]
  simp only [Prod.mk.injEq]
  refine ⟨?_, ?_, ?_⟩
  · rw [resolveHideFilter_req]
  · trivial
  · rw [hi]

/-- In every non-_init branch, __call__ stores the resolved
hide_filter policy on self. -/
theorem call_hide_filter (dl : PyVal) (hw : Bool)
    (wfn : Request → Option String → Option String → List (String × PyVal) → PyVal)
    (afn : Request → List (String × PyVal) → ApplyEffect)
    (s0 : SelfState) (r : Request) (marg wid : Option String)
    (attr : List (String × PyVal))
    (hm : (callTarget r marg).method ≠ some "_init") :
    (S3Method_call dl hw wfn afn s0 r marg wid attr).1.hide_filter
      = resolveHideFilter r attr := by
  simp only [S3Method_call]
  rw [if_neg hm]
  split
  · exact resolveHideFilter_req r marg attr
  · exact resolveHideFilter_req r marg attr

/-- Claim C1: for a component request with no method established
(neither the method argument nor r.method set), the method resolved by
__call__ defaults to list when the component is multiple and no
component id is given, and defaults to read otherwise. -/
theorem C1_component_method_default (dl : PyVal) (hw : Bool)
    (wfn : Request → Option String → Option String → List (String × PyVal) → PyVal)
    (afn : Request → List (String × PyVal) → ApplyEffect)
    (s0 : SelfState) (r : Request) (wid : Option String)
    (attr : List (String × PyVal)) (c : Component)
    (hc : r.component = some c) (hm : truthyOS r.method = false) :
    (S3Method_call dl hw wfn afn s0 r none wid attr).1.method
      = some (if c.multiple && !truthyId r.component_id then "list" else "read") := by
  rw [call_self_method]
  unfold callTarget resolveTarget
  rw [show (if (none : Option String).isSome then none else r.method) = r.method by rfl]
  rw [hc]
  simp only [hm, Bool.false_eq_true, if_false]
  cases hmul : c.multiple with
  | false => simp
  | true =>
    have hcid : (S3Method_record_id r).2.component_id = r.component_id := by
      simp only [S3Method_record_id, hc, hmul]
      split <;> simp
    rw [hcid]
    by_cases hid : truthyId r.component_id = true <;> simp [hid]

/-- Witness for C1: the sample component request (multiple component,
no component id) resolves to the list method. -/
theorem C1_component_method_default_witness :
    (S3Method_call .pnone true plainWidget plainApply S3Method_init
      componentRequest none none []).1.method = some "list" := by
  have h := C1_component_method_default .pnone true plainWidget plainApply
    S3Method_init componentRequest none [] contactComponent rfl rfl
  simpa using h

/-- A sample request whose established method is _init. -/
def initRequest : Request :=
  { masterRequest with method := some "_init" }

/-- Claim C10: for a request whose resolved method is _init, __call__
returns None after setting only the target-resolution attributes
(request, download_url, method, record_id, prefix, name, tablename,
table, resource), invoking neither apply_method nor widget nor
_extend_view (the result does not depend on the handlers), and leaving
hide_filter, self.next and r.next unchanged. -/
theorem C10_init_only_resolves_target (dl : PyVal) (hw : Bool)
    (wfn : Request → Option String → Option String → List (String × PyVal) → PyVal)
    (afn : Request → List (String × PyVal) → ApplyEffect)
    (s0 : SelfState) (r : Request) (marg wid : Option String)
    (attr : List (String × PyVal))
    (hm : (callTarget r marg).method = some "_init") :
    S3Method_call dl hw wfn afn s0 r marg wid attr =
      ({ s0 with
         request := some r
         download_url := dl
         method := some "_init"
         record_id := (callTarget r marg).record_id
         prefix_ := some (callTarget r marg).resource.prefix_
         name := some (callTarget r marg).resource.name
         tablename := some (callTarget r marg).resource.tablename
         table := some (callTarget r marg).resource.table
         resource := some (callTarget r marg).resource },
       (callTarget r marg).req, Except.ok PyVal.pnone)
    ∧ (callTarget r marg).req.next = r.next := by
  constructor
  · simp only [S3Method_call]
    rw [if_pos hm, hm]
  · exact callTarget_req_next r marg

/-- Witness for C10: the sample _init request returns None and leaves
hide_filter and next at their initial values. -/
theorem C10_init_only_resolves_target_witness :
    S3Method_call .pnone true plainWidget plainApply S3Method_init
      initRequest none none [] =
      ({ S3Method_init with
         request := some initRequest
         download_url := .pnone
         method := some "_init"
         record_id := some 5
         prefix_ := some "org"
         name := some "office"
         tablename := some "org_office"
         table := some 1
         resource := some orgOffice },
       initRequest, Except.ok PyVal.pnone) := by
  have h := (C10_init_only_resolves_target .pnone true plainWidget plainApply
    S3Method_init initRequest none none [] (by rfl)).1
  rw [h]
  rfl

/-- Claim C5: when a widget id is given and the instance has a widget
method, __call__ returns the widget output and performs none of the
standalone-page post-processing (no redirection, no assignment to
r.next, no _extend_view); otherwise, for a resolved method other than
_init, it delegates to apply_method. -/
theorem C5_widget_or_apply (dl : PyVal) (hw : Bool)
    (wfn : Request → Option String → Option String → List (String × PyVal) → PyVal)
    (afn : Request → List (String × PyVal) → ApplyEffect)
    (s0 : SelfState) (r : Request) (marg wid : Option String)
    (attr : List (String × PyVal))
    (hm : (callTarget r marg).method ≠ some "_init") :
    ((truthyOS wid && hw) = true →
      S3Method_call dl hw wfn afn s0 r marg wid attr =
        ({ s0 with
           request := some r
           download_url := dl
           method := (callTarget r marg).method
           record_id := (callTarget r marg).record_id
           prefix_ := some (callTarget r marg).resource.prefix_
           name := some (callTarget r marg).resource.name
           tablename := some (callTarget r marg).resource.tablename
           table := some (callTarget r marg).resource.table
           resource := some (callTarget r marg).resource
           hide_filter := resolveHideFilter r attr },
         (callTarget r marg).req,
         Except.ok (wfn (callTarget r marg).req (callTarget r marg).method wid attr)))
    ∧ ((truthyOS wid && hw) = false →
      (S3Method_call dl hw wfn afn s0 r marg wid attr).2.2 =
        S3Method_extend_view (afn (callTarget r marg).req attr).output
          r.interactive attr)
    ∧ (callTarget r marg).req.next = r.next := by
  refine ⟨?_, ?_, callTarget_req_next r marg⟩
  · intro h
    simp only [S3Method_call]
    rw [if_neg hm, if_pos (by simp [h]), resolveHideFilter_req]
  · intro h
    rw [call_apply_branch dl hw wfn afn s0 r marg wid attr hm h]

/-- Witness for C5: with a widget id, the sample request returns the
widget marker output without touching r.next or self.next. -/
theorem C5_widget_or_apply_witness :
    S3Method_call .pnone true plainWidget plainApply S3Method_init
      masterRequest none (some "w1") [] =
      ({ S3Method_init with
         request := some masterRequest
         download_url := .pnone
         method := some "read"
         record_id := some 5
         prefix_ := some "org"
         name := some "office"
         tablename := some "org_office"
         table := some 1
         resource := some orgOffice
         hide_filter := .pbool false },
       masterRequest, Except.ok (PyVal.pstr "widget-output")) := by
  have h := (C5_widget_or_apply .pnone true plainWidget plainApply S3Method_init
    masterRequest none (some "w1") [] (by decide)).1 (by rfl)
  rw [h]
  rfl

/-- Claim C9: for a resolved method other than _init, a non-interactive
request always gets hide_filter True; an interactive request with a
dict hide_filter attr resolves the setting by component name, then by
the _default key, else to None, and a None setting means hide_filter
is True exactly when the request has a component. -/
theorem C9_hide_filter_policy (dl : PyVal) (hw : Bool)
    (wfn : Request → Option String → Option String → List (String × PyVal) → PyVal)
    (afn : Request → List (String × PyVal) → ApplyEffect)
    (s0 : SelfState) (r : Request) (marg wid : Option String)
    (attr : List (String × PyVal))
    (hm : (callTarget r marg).method ≠ some "_init") :
    (r.interactive = false →
      (S3Method_call dl hw wfn afn s0 r marg wid attr).1.hide_filter = .pbool true)
    ∧ (∀ entries, r.interactive = true →
      aget attr "hide_filter" = some (.pdict entries) →
      (S3Method_call dl hw wfn afn s0 r marg wid attr).1.hide_filter =
        (match (match dget entries r.component_name with
                | some v => v
                | none =>
                  match dget entries (some "_default") with
                  | some v => v
                  | none => .pnone) with
         | .pnone => PyVal.pbool r.component.isSome
         | v => v)) := by
  rw [call_hide_filter dl hw wfn afn s0 r marg wid attr hm]
  constructor
  · intro h
    simp [resolveHideFilter, h]
  · intro entries hint hdict
    simp [resolveHideFilter, hint, hdict]

/-- Witness for C9: an interactive component request with a dict
hide_filter attr whose _default entry is False resolves to False. -/
theorem C9_hide_filter_policy_witness :
    (S3Method_call .pnone true plainWidget plainApply S3Method_init
      componentRequest none none
      [("hide_filter", .pdict [(some "_default", .pbool false)])]).1.hide_filter
      = PyVal.pbool false := by
  have h := (C9_hide_filter_policy .pnone true plainWidget plainApply S3Method_init
    componentRequest none none
    [("hide_filter", .pdict [(some "_default", .pbool false)])]
    (by decide)).2 [(some "_default", .pbool false)] (by rfl) (by rfl)
  rw [h]
  rfl

/-- Claim C6: for a non-widget invocation where apply_method leaves
self.next set and the resource has a non-empty lastid, __call__
replaces every occurrence of the %5Bid%5D and [id] placeholders in the
string form of self.next by the lastid, and assigns the resulting
next-URL to r.next exactly when response.error is not set. -/
theorem C6_next_redirection (dl : PyVal) (hw : Bool)
    (wfn : Request → Option String → Option String → List (String × PyVal) → PyVal)
    (afn : Request → List (String × PyVal) → ApplyEffect)
    (s0 : SelfState) (r : Request) (marg wid : Option String)
    (attr : List (String × PyVal))
    (hm : (callTarget r marg).method ≠ some "_init")
    (hwid : (truthyOS wid && hw) = false)
    (hnext : truthyOS (afn (callTarget r marg).req attr).next = true)
    (hlast : truthyOS (afn (callTarget r marg).req attr).resource_lastid = true) :
    (S3Method_call dl hw wfn afn s0 r marg wid attr).1.next =
      some (pyReplace
        (pyReplace ((afn (callTarget r marg).req attr).next.getD "") "%5Bid%5D"
          ((afn (callTarget r marg).req attr).resource_lastid.getD ""))
        "[id]" ((afn (callTarget r marg).req attr).resource_lastid.getD ""))
    ∧ (S3Method_call dl hw wfn afn s0 r marg wid attr).2.1.next =
      (if (afn (callTarget r marg).req attr).response_error then r.next
       else (S3Method_call dl hw wfn afn s0 r marg wid attr).1.next) := by
  have hcn : callNext (afn (callTarget r marg).req attr) =
      some (pyReplace
        (pyReplace ((afn (callTarget r marg).req attr).next.getD "") "%5Bid%5D"
          ((afn (callTarget r marg).req attr).resource_lastid.getD ""))
        "[id]" ((afn (callTarget r marg).req attr).resource_lastid.getD "")) := by
    unfold callNext
    rw [if_pos (by simp [hnext, hlast])]
  rw [call_apply_branch dl hw wfn afn s0 r marg wid attr hm hwid]
  refine ⟨hcn, ?_⟩
  by_cases herr : (afn (callTarget r marg).req attr).response_error = true
  · rw [if_pos herr, if_pos herr]
    exact callTarget_req_next r marg
  · rw [if_neg herr, if_neg herr]

/-- An apply_method effect that sets a next-URL with both placeholder
forms and a lastid. -/
def redirectApply : Request → List (String × PyVal) → ApplyEffect :=
  fun _ _ =>
    { output := .pdict []
      next := some "/org/office/%5Bid%5D/update/[id]"
      resource_lastid := some "7"
      response_error := false }

/-- Witness for C6: both placeholders in the concrete next-URL are
replaced by the lastid 7. -/
theorem C6_next_redirection_witness :
    (S3Method_call .pnone true plainWidget redirectApply S3Method_init
      masterRequest none none []).1.next = some "/org/office/7/update/7" := by
  have h := (C6_next_redirection .pnone true plainWidget redirectApply
    S3Method_init masterRequest none none [] (by decide) (by rfl) (by rfl)
    (by rfl)).1
  rw [h]
  rfl

/-- Claim C7: for an interactive request whose delegated handler
returns a dict, __call__ post-processes that output via _extend_view
before returning it; in _extend_view, a non-callable non-None attr
value is stored in the output under its key, a dict returned by a
callable is merged into the output, and a None returned by a callable
removes any existing output entry under the key. -/
theorem C7_extend_view_postprocessing (dl : PyVal) (hw : Bool)
    (wfn : Request → Option String → Option String → List (String × PyVal) → PyVal)
    (afn : Request → List (String × PyVal) → ApplyEffect)
    (s0 : SelfState) (r : Request) (marg wid : Option String)
    (attr : List (String × PyVal)) (d : Dict)
    (hm : (callTarget r marg).method ≠ some "_init")
    (hwid : (truthyOS wid && hw) = false)
    (hint : r.interactive = true)
    (hout : (afn (callTarget r marg).req attr).output = PyVal.pdict d) :
    (S3Method_call dl hw wfn afn s0 r marg wid attr).2.2 =
      (extendViewLoop attr d).map PyVal.pdict
    ∧ (∀ (key : String) (v : PyVal) (rest : List (String × PyVal)) (out : Dict),
        isCallable v = false → v ≠ PyVal.pnone →
        extendViewLoop ((key, v) :: rest) out =
          extendViewLoop rest (dset out (some key) v))
    ∧ (∀ (key : String) (d2 : Dict) (rest : List (String × PyVal)) (out : Dict),
        d2.all (fun kv => kv.1.isSome) = true →
        extendViewLoop ((key, PyVal.pfuncRet (PyVal.pdict d2)) :: rest) out =
          extendViewLoop rest (d2.foldl (fun o kv => dset o kv.1 kv.2) out))
    ∧ (∀ (key : String) (rest : List (String × PyVal)) (out : Dict),
        extendViewLoop ((key, PyVal.pfuncRet PyVal.pnone) :: rest) out =
          extendViewLoop rest
            (if dmem out (some key) then ddel out (some key) else out)) := by
  refine ⟨?_, ?_, ?_, ?_⟩
  · rw [call_apply_branch dl hw wfn afn s0 r marg wid attr hm hwid, hout, hint]
    rfl
  · intro key v rest out hcall hnone
    cases v with
    | pnone => exact absurd rfl hnone
    | pfuncRet w => simp [isCallable] at hcall
    | pfuncRaise e => simp [isCallable] at hcall
    | pbool b => rfl
    | pstr s => rfl
    | pdict dd => rfl
    | pother t => rfl
  · intro key d2 rest out hkeys
    simp [extendViewLoop, dupdateKw, hkeys]
  · intro key rest out
    rfl

/-- An apply_method effect that returns a dict output. -/
def dictApply : Request → List (String × PyVal) → ApplyEffect :=
  fun _ _ =>
    { output := .pdict [(some "title", .pstr "t")]
      next := none
      resource_lastid := none
      response_error := false }

/-- Witness for C7: a callable rheader attr returning a string is
stored in the dict output under its key. -/
theorem C7_extend_view_postprocessing_witness :
    (S3Method_call .pnone true plainWidget dictApply S3Method_init
      masterRequest none none [("rheader", .pfuncRet (.pstr "RH"))]).2.2 =
      Except.ok (PyVal.pdict [(some "title", .pstr "t"),
                              (some "rheader", .pstr "RH")]) := by
  have h := (C7_extend_view_postprocessing .pnone true plainWidget dictApply
    S3Method_init masterRequest none none [("rheader", .pfuncRet (.pstr "RH"))]
    [(some "title", .pstr "t")] (by decide) (by rfl) (by rfl) (by rfl)).1
  rw [h]
  rfl

/-- Claim C3: in _extend_view on an interactive request, a TypeError
raised by calling a handler is caught and that entry is skipped with
the output unchanged, while every other exception raised by a handler
propagates unmodified to the caller. -/
theorem C3_extend_view_exception_handling (out : Dict) (key : String)
    (rest : List (String × PyVal)) (t : Nat) :
    S3Method_extend_view (PyVal.pdict out) true
        ((key, PyVal.pfuncRaise PyExn.typeError) :: rest)
      = S3Method_extend_view (PyVal.pdict out) true rest
    ∧ S3Method_extend_view (PyVal.pdict out) true
        ((key, PyVal.pfuncRaise (PyExn.other t)) :: rest)
      = Except.error (PyExn.other t) :=
  ⟨rfl, rfl⟩

/-- Witness for C3: a concrete TypeError-raising handler is skipped
and leaves the output unchanged, while another exception propagates. -/
theorem C3_extend_view_exception_handling_witness :
    S3Method_extend_view (PyVal.pdict []) true
        [("rheader", PyVal.pfuncRaise PyExn.typeError)]
      = Except.ok (PyVal.pdict [])
    ∧ S3Method_extend_view (PyVal.pdict []) true
        [("rheader", PyVal.pfuncRaise (PyExn.other 3))]
      = Except.error (PyExn.other 3) := by
  have h := C3_extend_view_exception_handling [] "rheader" [] 3
  exact ⟨h.1.trans rfl, h.2⟩

/-- Counterexample to claim C2 as stated: on the sample request every
permission is denied, so the permission check for the resolved method
read on the target table and record returns False, yet __call__ still
invokes apply_method and returns its output; __call__ contains no
permission check, _permitted is a utility for the subclass handlers. -/
theorem C2_counterexample :
    S3Method_permitted (fun _ _ _ => false) (fun _ => none) masterRequest
      (some "read") none = false
    ∧ (S3Method_call .pnone true plainWidget plainApply S3Method_init
        masterRequest none none []).2.2 = Except.ok (PyVal.pstr "handled") :=
  ⟨rfl, rfl⟩

/-- Claim C2 (amended): __call__ itself performs no permission check:
for a resolved method other than _init and without a widget id it
delegates to apply_method and returns its post-processed output even
when _permitted, the permission-check utility the class provides for
the handlers, returns False for the resolved method. -/
theorem C2_delegates_without_permission_check (dl : PyVal) (hw : Bool)
    (wfn : Request → Option String → Option String → List (String × PyVal) → PyVal)
    (afn : Request → List (String × PyVal) → ApplyEffect)
    (s0 : SelfState) (r : Request) (marg wid : Option String)
    (attr : List (String × PyVal))
    (hp : Option String → Nat → Option Nat → Bool)
    (cfg : String → Option (List String))
    (hm : (callTarget r marg).method ≠ some "_init")
    (hwid : (truthyOS wid && hw) = false)
    (hperm : S3Method_permitted hp cfg r ((callTarget r marg).method) none = false) :
    (S3Method_call dl hw wfn afn s0 r marg wid attr).2.2 =
      S3Method_extend_view (afn (callTarget r marg).req attr).output
        r.interactive attr := by
  rw [call_apply_branch dl hw wfn afn s0 r marg wid attr hm hwid]

/-- Witness for the amended C2: with every permission denied, the
sample request still reaches apply_method and returns its output. -/
theorem C2_delegates_without_permission_check_witness :
    (S3Method_call .pnone true plainWidget plainApply S3Method_init
      masterRequest none none []).2.2 = Except.ok (PyVal.pstr "handled") := by
  have h := C2_delegates_without_permission_check .pnone true plainWidget
    plainApply S3Method_init masterRequest none none []
    (fun _ _ _ => false) (fun _ => none) (by decide) (by rfl) (by rfl)
  rw [h]
  rfl

/-- Claim C4: for a component request checked with method create, when
ignore_master_access does not list the component, _permitted returns
False whenever update permission on the master record is denied (for
every permission function, hence without consulting the component
permission); otherwise it returns the result of the permission check
on the component table and record. -/
theorem C4_component_create_master_access
    (hp : Option String → Nat → Option Nat → Bool)
    (cfg : String → Option (List String)) (r : Request) (c : Component)
    (selfM marg : Option String)
    (hc : r.component = some c)
    (hm : checkMethod selfM marg = some "create") :
    (ignoreMaster cfg r = false → hp (some "update") r.table r.id = false →
      S3Method_permitted hp cfg r selfM marg = false)
    ∧ (ignoreMaster cfg r = true ∨ hp (some "update") r.table r.id = true →
      S3Method_permitted hp cfg r selfM marg =
        hp (some "create") c.table r.component_id) := by
  constructor
  · intro hig hup
    simp [S3Method_permitted, hc, hm, hig, hup]
  · intro h
    rcases h with h | h <;> simp [S3Method_permitted, hc, hm, h]

/-- Witness for C4: on the sample component request with every
permission denied and no ignore_master_access configuration, creating
a component record is not permitted. -/
theorem C4_component_create_master_access_witness :
    S3Method_permitted (fun _ _ _ => false) (fun _ => none) componentRequest
      (some "create") none = false := by
  exact (C4_component_create_master_access (fun _ _ _ => false) (fun _ => none)
    componentRequest contactComponent (some "create") none rfl rfl).1 rfl rfl

/-- Counterexample to claim C8 as stated: the key with a newline
before its dot contains a dot with non-empty text on both sides, so
the stated pattern reading would remove the pair; but the regex dot
metacharacter does not match a newline, so REGEX_FILTER does not match
and _remove_filters keeps the pair. -/
theorem C8_counterexample :
    specFilterPattern "a\n.b" = true
    ∧ REGEX_FILTER_match "a\n.b" = false
    ∧ S3Method_remove_filters [("a\n.b", PyVal.pstr "v")]
        = [("a\n.b", PyVal.pstr "v")] := by
  refine ⟨by decide, by decide, rfl⟩

/-- Claim C8 (amended): _remove_filters returns exactly the pairs
whose key does not match REGEX_FILTER, with values unchanged and the
input unmodified, and is idempotent; on keys without newline
characters, matching REGEX_FILTER coincides with the stated reading
(a dot with non-empty text on both sides, or a parenthesized
non-empty group). -/
theorem C8_remove_filters_amended :
    (∀ gv : List (String × PyVal),
      S3Method_remove_filters (S3Method_remove_filters gv)
        = S3Method_remove_filters gv)
    ∧ (∀ (gv : List (String × PyVal)) (kv : String × PyVal),
      kv ∈ S3Method_remove_filters gv ↔
        kv ∈ gv ∧ REGEX_FILTER_match kv.1 = false)
    ∧ (∀ k : String, k.data.all (fun c => decide (c ≠ '\n')) = true →
      REGEX_FILTER_match k = specFilterPattern k) := by
  refine ⟨?_, ?_, ?_⟩
  · intro gv
    simp [S3Method_remove_filters, List.filter_filter]
  · intro gv kv
    simp [S3Method_remove_filters, List.mem_filter]
  · intro k hk
    have hnn : ∀ m : Nat, decide (k.data[m]?.getD ' ' = '\n') = false := by
      intro m
      rcases Nat.lt_or_ge m k.data.length with hm | hm
      · rw [List.getElem?_eq_getElem hm]
        have hmem : k.data[m] ∈ k.data := List.getElem_mem hm
        have h2 := List.all_eq_true.mp hk _ hmem
        simpa using h2
      · rw [List.getElem?_eq_none hm]
        decide
    have hall : ∀ n : Nat, ((List.range n).all fun _ => true) = true := by
      intro n
      simp
    simp [REGEX_FILTER_match, specFilterPattern, hnn, hall]

/-- Witness for the amended C8: on a concrete newline-free key the
regex match coincides with the stated pattern reading. -/
theorem C8_remove_filters_amended_witness :
    REGEX_FILTER_match "pr.name" = specFilterPattern "pr.name" :=
  C8_remove_filters_amended.2.2 "pr.name" (by decide)
